import Mathlib

/-!
Verification of the ex_openzl NIF layer (src/c_src/ex_openzl_nif.cpp).

The OpenZL engine itself is out of scope (a black box per the spec), so it is
modelled as an abstract `Engine` record of the native entry points the NIF
layer calls.  Each NIF is translated into a Lean function over that record,
faithful to the C++ control flow, and — where a claim speaks about *which*
native calls are made — the function additionally returns the ordered list of
engine calls it performed (`ECall` trace).

Erlang terms reaching `nif_compress_multi_typed` through `fine::Term` are
modelled by the inductive `ErlTerm`; `enif_get_list_cell`, `enif_get_tuple`,
`enif_get_atom`, `enif_inspect_binary` and `enif_get_uint64` become pattern
matches on it.  Machine sizes are `Nat`; `enif_get_uint64` fails on integers
that do not fit in 64 bits, which the model checks explicitly.  Negative
Erlang integers are subsumed by the catch-all constructors (they fail
`enif_get_uint64` exactly like any non-integer term).
-/

namespace ExOpenzl

/-- ZL_Type values the layer distinguishes; `other` stands for any value that
is none of the four named members (the `default:` case of the C++ switch). -/
inductive ZType where
  | serial
  | struct
  | numeric
  | string
  | other
deriving DecidableEq, Repr

/-- `type_to_string` from the source: converts a ZL_Type to the atom name. -/
def type_to_string : ZType → String
  | ZType.serial => "serial"
  | ZType.struct => "struct"
  | ZType.numeric => "numeric"
  | ZType.string => "string"
  | ZType.other => "unknown"

/-- A native typed reference, recorded as the arguments the NIF layer passed to
the engine constructor that built it (`ZL_TypedRef_createNumeric` /
`...createStruct` / `...createString`). -/
inductive TypedRef where
  | numeric (data : List Nat) (width : Nat) (count : Nat)
  | struct (data : List Nat) (width : Nat) (count : Nat)
  | str (data : List Nat) (lengths : List Nat) (count : Nat)
deriving DecidableEq, Repr

/-- Uncompressed byte size of the data a typed reference points at
(`bin.size` of the item it was built from). -/
def refDataSize : TypedRef → Nat
  | TypedRef.numeric data _ _ => data.length
  | TypedRef.struct data _ _ => data.length
  | TypedRef.str data _ _ => data.length

/-- A native typed buffer as filled by `ZL_DCtx_decompressMultiTBuffer`:
the queryable fields plus the readable byte content and, for strings, the
optional lengths array (`ZL_TypedBuffer_rStringLens` may return null). -/
structure TypedBuffer where
  type : ZType
  byteSize : Nat
  numElts : Nat
  eltWidth : Nat
  data : List Nat
  stringLens : Option (List Nat)
deriving DecidableEq, Repr

/-- The per-output map `nif_decompress_typed` / `nif_decompress_multi_typed`
build: type atom, copied data bytes, element width, element count, and the
`string_lengths` key that is present only for string outputs with a non-null
lengths pointer. -/
structure OutputDescriptor where
  type : String
  data : List Nat
  element_width : Nat
  num_elements : Nat
  string_lengths : Option (List Nat)
deriving DecidableEq, Repr

/-- Per-output map built by `nif_frame_info`; `none` models the `:unknown`
atom sentinel used when the corresponding engine query fails. -/
structure OutputInfo where
  type : String
  decompressed_size : Option Nat
  num_elements : Option Nat
deriving DecidableEq, Repr

/-- Top-level map built by `nif_frame_info`. -/
structure FrameInfoResult where
  format_version : Nat
  num_outputs : Nat
  outputs : List OutputInfo
deriving DecidableEq, Repr

/-- An Erlang term as far as `nif_compress_multi_typed` can observe it through
the `enif_*` decoding calls it performs. -/
inductive ErlTerm where
  | nil
  | cons (hd tl : ErlTerm)
  | tuple (ts : List ErlTerm)
  | atom (s : String)
  | bin (bytes : List Nat)
  | uint (n : Nat)
  | other
deriving Repr

/-- The proper-list prefix of a term: the heads that successive
`enif_get_list_cell` calls yield before the first non-cons tail. -/
def properItems : ErlTerm → List ErlTerm
  | ErlTerm.cons h t => h :: properItems t
  | _ => []

/-- Build the proper list holding the given items. -/
def termOfList : List ErlTerm → ErlTerm
  | [] => ErlTerm.nil
  | h :: t => ErlTerm.cons h (termOfList t)

/-- Reinterpret a byte sequence as packed little-endian uint32 values, the
`reinterpret_cast<const uint32_t *>` read of the lengths binary. -/
def u32sLE : List Nat → List Nat
  | b0 :: b1 :: b2 :: b3 :: rest =>
      (b0 + 256 * b1 + 65536 * b2 + 16777216 * b3) :: u32sLE rest
  | _ => []

/-- One engine (or NIF-runtime-allocating) call the NIF layer performs, with
the arguments it passed; used to state which native calls a code path makes. -/
inductive ECall where
  | compressBound (n : Nat)
  | cctxCreate
  | setParameter (p : Nat) (v : Int)
  | cctxCompress (src : List Nat) (cap : Nat)
  | createNumeric (data : List Nat) (width count : Nat)
  | createStruct (data : List Nat) (width count : Nat)
  | createString (data : List Nat) (size : Nat) (lengths : List Nat) (count : Nat)
  | compressTypedRef (cap : Nat) (ref : TypedRef)
  | compressMultiTypedRef (cap : Nat) (refs : List TypedRef)
  | sddlCompile (source : String)
deriving DecidableEq, Repr

/-- ZL_CParam members used by the source, modelled as distinct codes; nothing
below relies on the concrete numbers, only on their distinctness. -/
def ZL_CParam_stickyParameters : Nat := 1

/-- ZL_CParam code for the format-version parameter. -/
def ZL_CParam_formatVersion : Nat := 2

/-- ZL_CParam code for the compression-level parameter. -/
def ZL_CParam_compressionLevel : Nat := 3

/-- The black-box codec engine: one field per native entry point the NIF layer
invokes.  Fallible calls return `Except`; for calls whose failure the source
follows with `ZL_CCtx_getErrorContextString` / `ZL_DCtx_getErrorContextString`
the error payload is the `Option String` that context-string query would
return (`none` models a null diagnostic).  Queries the source never reads a
diagnostic for carry a `Unit` error. -/
structure Engine where
  compressBound : Nat → Nat
  cctxCreateOk : Bool
  setParamOk : Nat → Int → Bool
  cctxCompress : List Nat → Nat → Except (Option String) (List Nat)
  getDecompressedSize : List Nat → Except Unit Nat
  decompress : List Nat → Nat → Except (Option String) (List Nat)
  createNumericOk : List Nat → Nat → Nat → Bool
  createStructOk : List Nat → Nat → Nat → Bool
  createStringOk : List Nat → Nat → List Nat → Nat → Bool
  compressTypedRef : Nat → TypedRef → Except (Option String) (List Nat)
  compressMultiTypedRef : Nat → List TypedRef → Except (Option String) (List Nat)
  typedBufferCreateOk : Bool
  getNumOutputs : List Nat → Except Unit Nat
  decompressMultiT : List Nat → Nat → Except (Option String) (List TypedBuffer)
  frameInfoCreateOk : List Nat → Bool
  fiFormatVersion : List Nat → Except Unit Nat
  fiNumOutputs : List Nat → Except Unit Nat
  fiOutputType : List Nat → Nat → Except Unit ZType
  fiDecompressedSize : List Nat → Nat → Except Unit Nat
  fiNumElts : List Nat → Nat → Except Unit Nat
  sddlCompile : String → String → Except String String
  compressorCreateOk : Bool
  selectStartingGraphOk : Bool
  refCompressorOk : Bool
  defaultEncodingVersion : Nat

/-- Boolean success test for `Except`. -/
def exOk {ε α : Type} : Except ε α → Bool
  | Except.ok _ => true
  | Except.error _ => false

/-- State of a reusable compression context as far as the constructor `CCtx::CCtx`
determines it: the parameter store (a parameter lands in it when the engine
accepts the `ZL_CCtx_setParameter` call, whose result the constructor
discards), whether the default compressor was created, and whether the
default generic graph ended up referenced by the context. -/
structure CCtxState where
  ctxParams : Nat → Option Int
  defaultCompressorCreated : Bool
  defaultGraphAttached : Bool

/-- Effect of one (result-discarded) `ZL_CCtx_setParameter` call on the
parameter store: recorded when the engine accepts it, dropped otherwise. -/
def cctxSetParam (params : Nat → Option Int) (ok : Bool) (p : Nat) (v : Int) :
    Nat → Option Int :=
  if ok then fun q => if q = p then some v else params q else params

/-- Parameter store resulting from the two (result-discarded)
`ZL_CCtx_setParameter` calls of the constructor: format version to the
engine default, then sticky parameters to 1. -/
def cctxParamsOf (E : Engine) : Nat → Option Int :=
  cctxSetParam
    (cctxSetParam (fun _ => none)
      (E.setParamOk ZL_CParam_formatVersion (E.defaultEncodingVersion : Int))
      ZL_CParam_formatVersion (E.defaultEncodingVersion : Int))
    (E.setParamOk ZL_CParam_stickyParameters 1) ZL_CParam_stickyParameters 1

/-- `CCtx::CCtx` from the source: create the context (throwing on null),
set format version and sticky parameters (results discarded), then attempt
the default generic-compression graph: create a compressor, select
`ZL_GRAPH_COMPRESS_GENERIC` as its starting graph and, only if that
succeeded, reference it from the context — every failure in that tail is
ignored. -/
def cctxConstruct (E : Engine) : Except String CCtxState :=
  if E.cctxCreateOk = false then
    Except.error "failed to create OpenZL compression context"
  else if E.compressorCreateOk = false then
    Except.ok { ctxParams := cctxParamsOf E, defaultCompressorCreated := false,
                defaultGraphAttached := false }
  else if E.selectStartingGraphOk = false then
    Except.ok { ctxParams := cctxParamsOf E, defaultCompressorCreated := true,
                defaultGraphAttached := false }
  else
    Except.ok { ctxParams := cctxParamsOf E, defaultCompressorCreated := true,
                defaultGraphAttached := E.refCompressorOk }

/-- `nif_compress`: reject empty input, compute the bound, create a scratch
context, set the format version, compress, and on engine failure surface the
context error string when non-null, else the generic fallback. -/
def nif_compress (E : Engine) (input : List Nat) :
    Except String (List Nat) × List ECall :=
  if input.isEmpty then
    (Except.error "input must not be empty", [])
  else
    let bound := E.compressBound input.length
    if E.cctxCreateOk = false then
      (Except.error "failed to create compression context",
       [ECall.compressBound input.length, ECall.cctxCreate])
    else
      let calls := [ECall.compressBound input.length, ECall.cctxCreate,
        ECall.setParameter ZL_CParam_formatVersion (E.defaultEncodingVersion : Int),
        ECall.cctxCompress input bound]
      match E.cctxCompress input bound with
      | Except.error ctxStr =>
          (Except.error (ctxStr.getD "compression failed"), calls)
      | Except.ok out => (Except.ok out, calls)

/-- `nif_decompress`: reject empty input, query the decompressed size
(generic error if unreadable), then `ZL_decompress`; an engine failure there
is reported as the fixed string with no context-string query. -/
def nif_decompress (E : Engine) (compressed : List Nat) :
    Except String (List Nat) :=
  if compressed.isEmpty then
    Except.error "input must not be empty"
  else
    match E.getDecompressedSize compressed with
    | Except.error _ =>
        Except.error "failed to read decompressed size from frame"
    | Except.ok outSize =>
        match E.decompress compressed outSize with
        | Except.error _ => Except.error "decompression failed"
        | Except.ok out => Except.ok out

/-- `nif_compress_typed_string`: empty-data check, lengths-alignment check,
string ref construction, then the typed compress call with the engine
diagnostic-or-fallback error convention. -/
def nif_compress_typed_string (E : Engine) (data lensBin : List Nat) :
    Except String (List Nat) × List ECall :=
  if data.isEmpty then
    (Except.error "input must not be empty", [])
  else if lensBin.length % 4 ≠ 0 then
    (Except.error "lengths binary size must be a multiple of 4", [])
  else
    let nb := lensBin.length / 4
    let lengths := u32sLE lensBin
    let c0 := [ECall.createString data data.length lengths nb]
    if E.createStringOk data data.length lengths nb = false then
      (Except.error "failed to create string typed ref", c0)
    else
      let bound := E.compressBound data.length
      let tref := TypedRef.str data lengths nb
      let calls := c0 ++ [ECall.compressBound data.length,
                          ECall.compressTypedRef bound tref]
      match E.compressTypedRef bound tref with
      | Except.error es =>
          (Except.error (es.getD "typed string compression failed"), calls)
      | Except.ok out => (Except.ok out, calls)

/-- Decode and validate one item of the multi-typed input list, exactly the
per-item body of the `while (enif_get_list_cell ...)` loop of
`nif_compress_multi_typed`: 3-tuple shape, atom tag (a tag over 15 bytes does
not fit `enif_get_atom`'s 16-byte buffer), binary payload, then per-tag
validation and native reference construction. -/
def decodeOne (E : Engine) (head : ErlTerm) :
    Except String TypedRef × List ECall :=
  match head with
  | ErlTerm.tuple [t0, t1, t2] =>
    match t0 with
    | ErlTerm.atom a =>
      if 16 ≤ a.length then (Except.error "first element must be an atom", [])
      else
        match t1 with
        | ErlTerm.bin data =>
          if a = "numeric" then
            match t2 with
            | ErlTerm.uint w =>
              if 2 ^ 64 ≤ w then
                (Except.error "numeric width must be a positive integer", [])
              else if w ≠ 1 ∧ w ≠ 2 ∧ w ≠ 4 ∧ w ≠ 8 then
                (Except.error "numeric element_width must be 1, 2, 4, or 8", [])
              else if data.length % w ≠ 0 then
                (Except.error "numeric data size must be a multiple of width", [])
              else
                let count := data.length / w
                if E.createNumericOk data w count then
                  (Except.ok (TypedRef.numeric data w count),
                   [ECall.createNumeric data w count])
                else
                  (Except.error "failed to create numeric typed ref",
                   [ECall.createNumeric data w count])
            | _ => (Except.error "numeric width must be a positive integer", [])
          else if a = "struct" then
            match t2 with
            | ErlTerm.uint w =>
              if 2 ^ 64 ≤ w then
                (Except.error "struct width must be a positive integer", [])
              else if w = 0 then
                (Except.error "struct_width must be > 0", [])
              else if data.length % w ≠ 0 then
                (Except.error "struct data size must be a multiple of width", [])
              else
                let count := data.length / w
                if E.createStructOk data w count then
                  (Except.ok (TypedRef.struct data w count),
                   [ECall.createStruct data w count])
                else
                  (Except.error "failed to create struct typed ref",
                   [ECall.createStruct data w count])
            | _ => (Except.error "struct width must be a positive integer", [])
          else if a = "string" then
            match t2 with
            | ErlTerm.bin lensBin =>
              if lensBin.length % 4 ≠ 0 then
                (Except.error "string lengths binary size must be a multiple of 4", [])
              else
                let nb := lensBin.length / 4
                let lengths := u32sLE lensBin
                if E.createStringOk data data.length lengths nb then
                  (Except.ok (TypedRef.str data lengths nb),
                   [ECall.createString data data.length lengths nb])
                else
                  (Except.error "failed to create string typed ref",
                   [ECall.createString data data.length lengths nb])
            | _ =>
              (Except.error "string lengths must be a binary of uint32_t values", [])
          else
            (Except.error ("unknown type atom: " ++ a), [])
        | _ => (Except.error "second element must be a binary", [])
    | _ => (Except.error "first element must be an atom", [])
  | _ => (Except.error "each input must be a 3-tuple \x7btype, data, param\x7d", [])

/-- The `while (enif_get_list_cell ...)` loop of `nif_compress_multi_typed`,
with the accumulated refs, total size and call trace as arguments; stops at
the first non-cons tail. -/
def multiLoop (E : Engine) :
    ErlTerm → List TypedRef → Nat → List ECall →
    Except String (List TypedRef × Nat) × List ECall
  | ErlTerm.cons head tail, refs, total, calls =>
    match decodeOne E head with
    | (Except.error e, c) => (Except.error e, calls ++ c)
    | (Except.ok r, c) =>
        multiLoop E tail (refs ++ [r]) (total + refDataSize r) (calls ++ c)
  | _, refs, total, calls => (Except.ok (refs, total), calls)

/-- `nif_compress_multi_typed`: run the decoding loop, reject an empty ref
list, compute the bound from the accumulated total, and invoke the engine
multi-reference compress with the refs in accumulation order. -/
def nif_compress_multi_typed (E : Engine) (t : ErlTerm) :
    Except String (List Nat) × List ECall :=
  match multiLoop E t [] 0 [] with
  | (Except.error e, calls) => (Except.error e, calls)
  | (Except.ok (refs, total), calls) =>
    if refs.isEmpty then
      (Except.error "input list must not be empty", calls)
    else
      let bound := E.compressBound total
      let calls := calls ++ [ECall.compressBound total,
                             ECall.compressMultiTypedRef bound refs]
      match E.compressMultiTypedRef bound refs with
      | Except.error es =>
          (Except.error (es.getD "multi-typed compression failed"), calls)
      | Except.ok out => (Except.ok out, calls)

/-- Decode one reconstructed typed buffer into its result map, the per-buffer
body of the result loop shared by `nif_decompress_typed` and
`nif_decompress_multi_typed`: copy out `byteSize` bytes, report width and
count, and attach `string_lengths` (the first `numElts` uint32 values) only
for a string buffer whose lengths pointer is non-null. -/
def decodeTypedBuffer (b : TypedBuffer) : OutputDescriptor :=
  { type := type_to_string b.type
    data := b.data.take b.byteSize
    element_width := b.eltWidth
    num_elements := b.numElts
    string_lengths :=
      if b.type = ZType.string then
        match b.stringLens with
        | some lens => some (lens.take b.numElts)
        | none => none
      else none }

/-- `nif_decompress_multi_typed`: reject empty input, read the output count
from the frame, allocate that many typed buffers, run the multi-buffer
decompress, then decode the buffers in position order. -/
def nif_decompress_multi_typed (E : Engine) (compressed : List Nat) :
    Except String (List OutputDescriptor) :=
  if compressed.isEmpty then
    Except.error "input must not be empty"
  else
    match E.getNumOutputs compressed with
    | Except.error _ =>
        Except.error "failed to get number of outputs from frame"
    | Except.ok n =>
      if 0 < n ∧ E.typedBufferCreateOk = false then
        Except.error "failed to create typed buffer"
      else
        match E.decompressMultiT compressed n with
        | Except.error es =>
            Except.error (es.getD "multi-typed decompression failed")
        | Except.ok bufs => Except.ok (bufs.map decodeTypedBuffer)

/-- Per-output map of `nif_frame_info`: each of the three engine queries
independently falls back to the `:unknown` sentinel on failure. -/
def outputInfo (E : Engine) (c : List Nat) (i : Nat) : OutputInfo :=
  { type :=
      match E.fiOutputType c i with
      | Except.ok ty => type_to_string ty
      | Except.error _ => "unknown"
    decompressed_size :=
      match E.fiDecompressedSize c i with
      | Except.ok n => some n
      | Except.error _ => none
    num_elements :=
      match E.fiNumElts c i with
      | Except.ok n => some n
      | Except.error _ => none }

/-- `nif_frame_info`: reject empty input; fail if the frame-info object cannot
be created, the format version is unreadable, or the output count is
unreadable; otherwise build the per-output list with independent `:unknown`
fallbacks. -/
def nif_frame_info (E : Engine) (c : List Nat) : Except String FrameInfoResult :=
  if c.isEmpty then
    Except.error "input must not be empty"
  else if E.frameInfoCreateOk c = false then
    Except.error "failed to create frame info"
  else
    match E.fiFormatVersion c with
    | Except.error _ => Except.error "failed to get format version"
    | Except.ok ver =>
      match E.fiNumOutputs c with
      | Except.error _ => Except.error "failed to get number of outputs"
      | Except.ok n =>
          Except.ok { format_version := ver, num_outputs := n,
                      outputs := (List.range n).map (outputInfo E c) }

/-- `nif_sddl_compile`: reject empty source, call the SDDL compiler with the
fixed `"[input]"` label inside a try/catch, and turn a thrown exception into
an error result with the prefixed message. -/
def nif_sddl_compile (E : Engine) (source : String) :
    Except String String × List ECall :=
  if source.isEmpty then
    (Except.error "SDDL source must not be empty", [])
  else
    match E.sddlCompile source "[input]" with
    | Except.ok compiled => (Except.ok compiled, [ECall.sddlCompile source])
    | Except.error ewhat =>
        (Except.error ("SDDL compilation failed: " ++ ewhat),
         [ECall.sddlCompile source])

/-- Straight-line decoding of a list of items: the same per-item validation
and construction as the loop, without the accumulators; used to characterise
`multiLoop`. -/
def decodeItems (E : Engine) :
    List ErlTerm → Except String (List TypedRef × Nat) × List ECall
  | [] => (Except.ok ([], 0), [])
  | h :: t =>
    match decodeOne E h with
    | (Except.error e, c) => (Except.error e, c)
    | (Except.ok r, c) =>
      match decodeItems E t with
      | (Except.error e, c2) => (Except.error e, c ++ c2)
      | (Except.ok (rs, ts), c2) =>
          (Except.ok (r :: rs, refDataSize r + ts), c ++ c2)

/-- Recognises the engine multi-reference compress call in a trace. -/
def isMultiCompressCall : ECall → Bool
  | ECall.compressMultiTypedRef _ _ => true
  | _ => false

theorem multiLoop_eq (E : Engine) :
    ∀ (t : ErlTerm) (refs : List TypedRef) (total : Nat) (calls : List ECall),
      multiLoop E t refs total calls =
        match decodeItems E (properItems t) with
        | (Except.error e, c) => (Except.error e, calls ++ c)
        | (Except.ok (rs, ts), c) =>
            (Except.ok (refs ++ rs, total + ts), calls ++ c)
  | ErlTerm.cons h tl, refs, total, calls => by
      have ih := multiLoop_eq E tl
      rcases hdo : decodeOne E h with ⟨r, c⟩
      rcases r with e | r
      · simp [multiLoop, properItems, decodeItems, hdo]
      · rcases hdi : decodeItems E (properItems tl) with ⟨r2, c2⟩
        rcases r2 with e2 | ⟨rs, ts⟩
        · simp [multiLoop, properItems, decodeItems, hdo, hdi, ih]
        · simp [multiLoop, properItems, decodeItems, hdo, hdi, ih,
                Nat.add_assoc]
  | ErlTerm.nil, refs, total, calls => by
      simp [multiLoop, properItems, decodeItems]
  | ErlTerm.tuple ts, refs, total, calls => by
      simp [multiLoop, properItems, decodeItems]
  | ErlTerm.atom s, refs, total, calls => by
      simp [multiLoop, properItems, decodeItems]
  | ErlTerm.bin bs, refs, total, calls => by
      simp [multiLoop, properItems, decodeItems]
  | ErlTerm.uint n, refs, total, calls => by
      simp [multiLoop, properItems, decodeItems]
  | ErlTerm.other, refs, total, calls => by
      simp [multiLoop, properItems, decodeItems]

theorem nif_multi_eq (E : Engine) (t : ErlTerm) :
    nif_compress_multi_typed E t =
      match decodeItems E (properItems t) with
      | (Except.error e, c) => (Except.error e, c)
      | (Except.ok (refs, total), c) =>
        if refs.isEmpty then (Except.error "input list must not be empty", c)
        else
          match E.compressMultiTypedRef (E.compressBound total) refs with
          | Except.error es =>
              (Except.error (es.getD "multi-typed compression failed"),
               c ++ [ECall.compressBound total,
                     ECall.compressMultiTypedRef (E.compressBound total) refs])
          | Except.ok out =>
              (Except.ok out,
               c ++ [ECall.compressBound total,
                     ECall.compressMultiTypedRef (E.compressBound total) refs]) := by
  unfold nif_compress_multi_typed
  rw [multiLoop_eq]
  rcases hdi : decodeItems E (properItems t) with ⟨r, c⟩
  rcases r with e | ⟨rs, ts⟩
  · simp
  · simp

theorem properItems_termOfList : ∀ l : List ErlTerm, properItems (termOfList l) = l
  | [] => by simp [termOfList, properItems]
  | h :: t => by simp [termOfList, properItems, properItems_termOfList t]

theorem decodeItems_ok (E : Engine) :
    ∀ (l : List ErlTerm) (rs : List TypedRef) (ts : Nat) (c : List ECall),
      decodeItems E l = (Except.ok (rs, ts), c) →
      rs.length = l.length ∧ ts = (rs.map refDataSize).sum ∧
        ∀ i (hi : i < l.length) (hr : i < rs.length),
          (decodeOne E (l.get ⟨i, hi⟩)).1 = Except.ok (rs.get ⟨i, hr⟩)
  | [], rs, ts, c, h => by
      simp only [decodeItems] at h
      obtain ⟨h1, h2⟩ := Prod.mk.injEq .. ▸ h
      cases h
      refine ⟨rfl, rfl, ?_⟩
      intro i hi
      exact absurd hi (Nat.not_lt_zero i)
  | x :: l, rs, ts, c, h => by
      rcases hdo : decodeOne E x with ⟨r, c1⟩
      rcases r with e | r
      · rw [decodeItems, hdo] at h
        cases h
      · rcases hdi : decodeItems E l with ⟨r2, c2⟩
        rcases r2 with e2 | ⟨rs', ts'⟩
        · rw [decodeItems, hdo, hdi] at h
          cases h
        · rw [decodeItems, hdo, hdi] at h
          obtain ⟨hok, hc⟩ := Prod.mk.injEq .. ▸ h
          obtain ⟨hrs, hts⟩ := Prod.mk.injEq .. ▸ (Except.ok.injEq .. ▸ hok)
          obtain ⟨ih1, ih2, ih3⟩ := decodeItems_ok E l rs' ts' c2 hdi
          subst hrs hts
          refine ⟨by simp [ih1], by simp [ih2], ?_⟩
          intro i hi hr
          cases i with
          | zero => simpa using congrArg Prod.fst hdo
          | succ j =>
              have hj : j < l.length := by simpa using hi
              have hjr : j < rs'.length := by simpa using hr
              simpa using ih3 j hj hjr

theorem decodeOne_no_multi (E : Engine) (h : ErlTerm) :
    ∀ call ∈ (decodeOne E h).2, isMultiCompressCall call = false := by
  unfold decodeOne
  repeat' split
  all_goals intro call hc
  all_goals simp_all [isMultiCompressCall, apply_ite Prod.snd]

theorem decodeItems_no_multi (E : Engine) :
    ∀ l : List ErlTerm, ∀ call ∈ (decodeItems E l).2,
      isMultiCompressCall call = false
  | [], call, hc => by simp [decodeItems] at hc
  | x :: l, call, hc => by
      rcases hdo : decodeOne E x with ⟨r, c1⟩
      have hone := decodeOne_no_multi E x
      rw [hdo] at hone
      rcases r with e | r
      · rw [decodeItems, hdo] at hc
        exact hone call hc
      · rcases hdi : decodeItems E l with ⟨r2, c2⟩
        have hrest := decodeItems_no_multi E l
        rw [hdi] at hrest
        rcases r2 with e2 | ⟨rs, ts⟩
        · rw [decodeItems, hdo, hdi] at hc
          simp only [List.mem_append] at hc
          rcases hc with hc | hc
          · exact hone call hc
          · exact hrest call hc
        · rw [decodeItems, hdo, hdi] at hc
          simp only [List.mem_append] at hc
          rcases hc with hc | hc
          · exact hone call hc
          · exact hrest call hc

theorem decodeItems_append_error (E : Engine) :
    ∀ (pre : List ErlTerm) (bad : ErlTerm) (rest : List ErlTerm) (e : String),
      (∀ x ∈ pre, exOk (decodeOne E x).1 = true) →
      (decodeOne E bad).1 = Except.error e →
      (decodeItems E (pre ++ bad :: rest)).1 = Except.error e
  | [], bad, rest, e, _, hbad => by
      rcases hdo : decodeOne E bad with ⟨r, c⟩
      rw [hdo] at hbad
      simp only at hbad
      subst hbad
      simp [decodeItems, hdo]
  | x :: pre, bad, rest, e, hpre, hbad => by
      rcases hdo : decodeOne E x with ⟨r, c1⟩
      rcases r with e1 | r
      · have := hpre x (by simp)
        rw [hdo] at this
        simp [exOk] at this
      · have ih := decodeItems_append_error E pre bad rest e
          (fun y hy => hpre y (by simp [hy])) hbad
        rcases hdi : decodeItems E (pre ++ bad :: rest) with ⟨r2, c2⟩
        rw [hdi] at ih
        simp only at ih
        subst ih
        simp [decodeItems, hdo, hdi]

/-- A typed buffer used by concrete engine instances in the witnesses. -/
def dummyBuf : TypedBuffer :=
  { type := ZType.numeric, byteSize := 2, numElts := 2, eltWidth := 1,
    data := [5, 6], stringLens := none }

/-- A concrete engine on which every native call succeeds. -/
def okEngine : Engine where
  compressBound := fun n => n + 64
  cctxCreateOk := true
  setParamOk := fun _ _ => true
  cctxCompress := fun _ _ => Except.ok [7]
  getDecompressedSize := fun _ => Except.ok 2
  decompress := fun _ _ => Except.ok [1, 2]
  createNumericOk := fun _ _ _ => true
  createStructOk := fun _ _ _ => true
  createStringOk := fun _ _ _ _ => true
  compressTypedRef := fun _ _ => Except.ok [7]
  compressMultiTypedRef := fun _ _ => Except.ok [7]
  typedBufferCreateOk := true
  getNumOutputs := fun _ => Except.ok 1
  decompressMultiT := fun _ n => Except.ok (List.replicate n dummyBuf)
  frameInfoCreateOk := fun _ => true
  fiFormatVersion := fun _ => Except.ok 21
  fiNumOutputs := fun _ => Except.ok 1
  fiOutputType := fun _ _ => Except.ok ZType.numeric
  fiDecompressedSize := fun _ _ => Except.ok 8
  fiNumElts := fun _ _ => Except.ok 2
  sddlCompile := fun _ _ => Except.ok "blob"
  compressorCreateOk := true
  selectStartingGraphOk := true
  refCompressorOk := true
  defaultEncodingVersion := 21

/-- Engine whose raw decompress call fails while a contextual diagnostic is
available. -/
def diagDecompressEngine : Engine :=
  { okEngine with decompress := fun _ _ => Except.error (some "engine diagnostic") }

/-- Engine whose context compress call fails with a diagnostic. -/
def diagCompressEngine : Engine :=
  { okEngine with cctxCompress := fun _ _ => Except.error (some "boom") }

/-- Engine whose context compress call fails with a null diagnostic. -/
def nullDiagCompressEngine : Engine :=
  { okEngine with cctxCompress := fun _ _ => Except.error none }

/-- Engine on which the SDDL compiler throws. -/
def sddlFailEngine : Engine :=
  { okEngine with sddlCompile := fun _ _ => Except.error "bad token" }

/-- Engine whose frame-info format-version query fails while the frame opens
and its output count is readable. -/
def verFailEngine : Engine :=
  { okEngine with fiFormatVersion := fun _ => Except.error () }

/-- Engine whose per-output size and element-count queries fail. -/
def fieldFailEngine : Engine :=
  { okEngine with
    fiDecompressedSize := fun _ _ => Except.error ()
    fiNumElts := fun _ _ => Except.error ()
    fiOutputType := fun _ _ => Except.error () }

/-- Engine on which the default-compressor creation inside the CCtx
constructor fails. -/
def noGraphEngine : Engine :=
  { okEngine with compressorCreateOk := false }

/-- A well-formed numeric input item for the multi-typed compress list:
two one-byte elements. -/
def itemNum12 : ErlTerm :=
  ErlTerm.tuple [ErlTerm.atom "numeric", ErlTerm.bin [1, 2], ErlTerm.uint 1]

/-- A numeric input item with the disallowed element width 3. -/
def itemBadWidth : ErlTerm :=
  ErlTerm.tuple [ErlTerm.atom "numeric", ErlTerm.bin [1, 2, 3], ErlTerm.uint 3]

/-- The typed reference the engine receives for `itemNum12`. -/
def refNum12 : TypedRef := TypedRef.numeric [1, 2] 1 2

/-- Claim C3: for the empty primary input, `nif_compress`, the multi-typed
compress on the empty list, and `nif_sddl_compile` on empty source each
return the local empty-input error with an empty engine-call trace — so the
error precedes any engine or compiler call and is never an engine-produced
message, whatever the engine does. -/
theorem c3_empty_input_local (E : Engine) :
    nif_compress E [] = (Except.error "input must not be empty", [])
    ∧ nif_compress_multi_typed E ErlTerm.nil =
        (Except.error "input list must not be empty", [])
    ∧ nif_sddl_compile E "" = (Except.error "SDDL source must not be empty", []) :=
  ⟨rfl, rfl, rfl⟩

/-- Claim C9: `nif_compress_multi_typed` traverses only the proper-list
prefix of its argument — its result on any term equals its result on the
proper list of that prefix (so an improper tail is silently ignored), and
whenever the prefix is empty (in particular for any non-list argument) it
returns exactly the empty-input error. -/
theorem c9_proper_list_only (E : Engine) (t : ErlTerm) :
    nif_compress_multi_typed E t =
      nif_compress_multi_typed E (termOfList (properItems t))
    ∧ (properItems t = [] →
        nif_compress_multi_typed E t =
          (Except.error "input list must not be empty", [])) := by
  constructor
  · rw [nif_multi_eq, nif_multi_eq, properItems_termOfList]
  · intro hp
    rw [nif_multi_eq, hp]
    rfl

/-- Witness for C9 at a non-list argument: an atom behaves exactly like the
empty list and yields the local empty-input error. -/
theorem c9_proper_list_only_witness :
    nif_compress_multi_typed okEngine (ErlTerm.atom "oops") =
      (Except.error "input list must not be empty", [])
    ∧ nif_compress_multi_typed okEngine (ErlTerm.atom "oops") =
        nif_compress_multi_typed okEngine
          (termOfList (properItems (ErlTerm.atom "oops"))) :=
  ⟨(c9_proper_list_only okEngine (ErlTerm.atom "oops")).2 rfl,
   (c9_proper_list_only okEngine (ErlTerm.atom "oops")).1⟩

/-- Claim C2: whenever the engine accepts the constructor's calls, a freshly
constructed compression context has its format-version parameter set to the
engine's default encoding version, sticky parameters set to 1, and owns an
internally created default generic-compression compressor that is referenced
by (attached to) the context. -/
theorem c2_cctx_construction (E : Engine)
    (h1 : E.cctxCreateOk = true)
    (h2 : E.setParamOk ZL_CParam_formatVersion (E.defaultEncodingVersion : Int) = true)
    (h3 : E.setParamOk ZL_CParam_stickyParameters 1 = true)
    (h4 : E.compressorCreateOk = true)
    (h5 : E.selectStartingGraphOk = true)
    (h6 : E.refCompressorOk = true) :
    ∃ st, cctxConstruct E = Except.ok st
      ∧ st.ctxParams ZL_CParam_formatVersion = some (E.defaultEncodingVersion : Int)
      ∧ st.ctxParams ZL_CParam_stickyParameters = some 1
      ∧ st.defaultCompressorCreated = true
      ∧ st.defaultGraphAttached = true := by
  refine ⟨{ ctxParams := cctxParamsOf E, defaultCompressorCreated := true,
            defaultGraphAttached := E.refCompressorOk }, ?_, ?_, ?_, rfl, h6⟩
  · simp [cctxConstruct, h1, h4, h5]
  · have h2a : E.setParamOk 2 (E.defaultEncodingVersion : Int) = true := h2
    have h3a : E.setParamOk 1 1 = true := h3
    simp [cctxParamsOf, cctxSetParam, h2a, h3a,
          ZL_CParam_formatVersion, ZL_CParam_stickyParameters]
  · have h3a : E.setParamOk 1 1 = true := h3
    simp [cctxParamsOf, cctxSetParam, h3a, ZL_CParam_stickyParameters]

/-- Witness for C2 on the all-succeeding engine. -/
theorem c2_cctx_construction_witness :
    ∃ st, cctxConstruct okEngine = Except.ok st
      ∧ st.ctxParams ZL_CParam_formatVersion =
          some (okEngine.defaultEncodingVersion : Int)
      ∧ st.ctxParams ZL_CParam_stickyParameters = some 1
      ∧ st.defaultCompressorCreated = true
      ∧ st.defaultGraphAttached = true :=
  c2_cctx_construction okEngine rfl rfl rfl rfl rfl rfl

/-- Claim C10: as long as the native context allocation itself succeeds,
constructing a compression context never fails — whatever happens to the
default-graph setup — and the default graph ends up attached exactly when
compressor creation, starting-graph selection and the context reference all
succeed; any failure among them is silently discarded, leaving a context
with no attached default graph. -/
theorem c10_default_graph_failure_ignored (E : Engine)
    (h1 : E.cctxCreateOk = true) :
    ∃ st, cctxConstruct E = Except.ok st
      ∧ st.defaultGraphAttached =
          (E.compressorCreateOk && E.selectStartingGraphOk && E.refCompressorOk) := by
  cases h4 : E.compressorCreateOk
  · exact ⟨{ ctxParams := cctxParamsOf E, defaultCompressorCreated := false,
             defaultGraphAttached := false },
           by simp [cctxConstruct, h1, h4], by simp [h4]⟩
  · cases h5 : E.selectStartingGraphOk
    · exact ⟨{ ctxParams := cctxParamsOf E, defaultCompressorCreated := true,
               defaultGraphAttached := false },
             by simp [cctxConstruct, h1, h4, h5], by simp [h4, h5]⟩
    · exact ⟨{ ctxParams := cctxParamsOf E, defaultCompressorCreated := true,
               defaultGraphAttached := E.refCompressorOk },
             by simp [cctxConstruct, h1, h4, h5], by simp [h4, h5]⟩

/-- Witness for C10: with default-compressor creation failing, construction
still succeeds and the context has no attached default graph. -/
theorem c10_default_graph_failure_ignored_witness :
    ∃ st, cctxConstruct noGraphEngine = Except.ok st
      ∧ st.defaultGraphAttached =
          (noGraphEngine.compressorCreateOk && noGraphEngine.selectStartingGraphOk
            && noGraphEngine.refCompressorOk) :=
  c10_default_graph_failure_ignored noGraphEngine rfl

/-- Claim C1: whenever the multi-typed compress succeeds, the reference list
handed to the engine's multi-reference compress call contains, at position i,
exactly the reference built from the i-th input item, the accumulated total
equals the sum of the per-item data sizes, and the output bound passed to
the engine is computed from that total; and whenever the multi-typed
decompress succeeds its descriptor list is the position-ordered decoding of
the frame's output buffers. -/
theorem c1_multi_order (E : Engine) (t : ErlTerm) (out : List Nat)
    (calls : List ECall) (frame : List Nat) (descs : List OutputDescriptor)
    (h1 : nif_compress_multi_typed E t = (Except.ok out, calls))
    (h2 : nif_decompress_multi_typed E frame = Except.ok descs) :
    (∃ refs total c,
      decodeItems E (properItems t) = (Except.ok (refs, total), c)
      ∧ refs.length = (properItems t).length
      ∧ (∀ i (hi : i < (properItems t).length) (hr : i < refs.length),
          (decodeOne E ((properItems t).get ⟨i, hi⟩)).1 =
            Except.ok (refs.get ⟨i, hr⟩))
      ∧ total = (refs.map refDataSize).sum
      ∧ ECall.compressMultiTypedRef (E.compressBound total) refs ∈ calls)
    ∧ (∃ n bufs, E.getNumOutputs frame = Except.ok n
        ∧ E.decompressMultiT frame n = Except.ok bufs
        ∧ descs = bufs.map decodeTypedBuffer) := by
  constructor
  · rw [nif_multi_eq] at h1
    split at h1
    · simp at h1
    · rename_i refs total c hdi
      split at h1
      · simp at h1
      · split at h1
        · simp at h1
        · rename_i o hcm
          obtain ⟨ho, hcalls⟩ := Prod.mk.injEq .. ▸ h1
          obtain ⟨hl, hs, hp⟩ := decodeItems_ok E _ refs total c hdi
          exact ⟨refs, total, c, hdi, hl, hp, hs, by rw [← hcalls]; simp⟩
  · unfold nif_decompress_multi_typed at h2
    split at h2
    · simp at h2
    · split at h2
      · simp at h2
      · rename_i n hn
        split at h2
        · simp at h2
        · split at h2
          · simp at h2
          · rename_i bufs hd
            obtain hdescs := Except.ok.injEq .. ▸ h2
            exact ⟨n, bufs, hn, hd, hdescs.symm⟩

/-- Witness for C1 on the all-succeeding engine with a single numeric item
and a one-output frame. -/
theorem c1_multi_order_witness :
    (∃ refs total c,
      decodeItems okEngine (properItems (termOfList [itemNum12])) =
          (Except.ok (refs, total), c)
      ∧ refs.length = (properItems (termOfList [itemNum12])).length
      ∧ (∀ i (hi : i < (properItems (termOfList [itemNum12])).length)
            (hr : i < refs.length),
          (decodeOne okEngine ((properItems (termOfList [itemNum12])).get ⟨i, hi⟩)).1 =
            Except.ok (refs.get ⟨i, hr⟩))
      ∧ total = (refs.map refDataSize).sum
      ∧ ECall.compressMultiTypedRef (okEngine.compressBound total) refs ∈
          [ECall.createNumeric [1, 2] 1 2, ECall.compressBound 2,
           ECall.compressMultiTypedRef 66 [refNum12]])
    ∧ (∃ n bufs, okEngine.getNumOutputs [1] = Except.ok n
        ∧ okEngine.decompressMultiT [1] n = Except.ok bufs
        ∧ [decodeTypedBuffer dummyBuf] = bufs.map decodeTypedBuffer) :=
  c1_multi_order okEngine (termOfList [itemNum12]) [7]
    [ECall.createNumeric [1, 2] 1 2, ECall.compressBound 2,
     ECall.compressMultiTypedRef 66 [refNum12]]
    [1] [decodeTypedBuffer dummyBuf] rfl rfl

/-- Claim C4 counterexample: on an engine whose raw decompress call fails
with an available contextual diagnostic, `nif_decompress` still returns the
generic fallback message, not the engine diagnostic — refuting the claim
that the engine's own diagnostic is surfaced for one-shot decompress. -/
theorem c4_counterexample :
    diagDecompressEngine.decompress [1] 2 = Except.error (some "engine diagnostic")
    ∧ nif_decompress diagDecompressEngine [1] = Except.error "decompression failed"
    ∧ "decompression failed" ≠ "engine diagnostic" :=
  ⟨rfl, rfl, by decide⟩

/-- Claim C4 amended: the compress path surfaces the engine's contextual
diagnostic when one is available and a generic per-operation fallback when
it is null, but one-shot decompress always reports the fixed generic message
on an engine decompress failure, never the engine diagnostic. -/
theorem c4_engine_error_messages (E : Engine) (inp frame : List Nat)
    (s : String) (n : Nat) (d : Option String)
    (hinp : inp.isEmpty = false) (hctx : E.cctxCreateOk = true) :
    (E.cctxCompress inp (E.compressBound inp.length) = Except.error (some s) →
        (nif_compress E inp).1 = Except.error s)
    ∧ (E.cctxCompress inp (E.compressBound inp.length) = Except.error none →
        (nif_compress E inp).1 = Except.error "compression failed")
    ∧ (frame.isEmpty = false → E.getDecompressedSize frame = Except.ok n →
        E.decompress frame n = Except.error d →
        nif_decompress E frame = Except.error "decompression failed") := by
  refine ⟨?_, ?_, ?_⟩
  · intro hcc
    simp [nif_compress, hinp, hctx, hcc]
  · intro hcc
    simp [nif_compress, hinp, hctx, hcc]
  · intro hframe hsz hdc
    simp [nif_decompress, hframe, hsz, hdc]

/-- Witness for the amended C4 on concrete engines: a compress failure with
diagnostic "boom", a compress failure with a null diagnostic, and a
decompress failure with an ignored diagnostic. -/
theorem c4_engine_error_messages_witness :
    (nif_compress diagCompressEngine [1]).1 = Except.error "boom"
    ∧ (nif_compress nullDiagCompressEngine [1]).1 = Except.error "compression failed"
    ∧ nif_decompress diagDecompressEngine [1] = Except.error "decompression failed" :=
  ⟨(c4_engine_error_messages diagCompressEngine [1] [1] "boom" 2
      (some "engine diagnostic") rfl rfl).1 rfl,
   (c4_engine_error_messages nullDiagCompressEngine [1] [1] "x" 2 none
      rfl rfl).2.1 rfl,
   (c4_engine_error_messages diagDecompressEngine [1] [1] "x" 2
      (some "engine diagnostic") rfl rfl).2.2 rfl rfl rfl⟩

/-- Claim C5 counterexample: the same invalid numeric width produces the
identical error message whether the offending item is at position 0 or at
position 1 of the input list, so the returned message does not identify the
offending item's position. -/
theorem c5_counterexample :
    (nif_compress_multi_typed okEngine (termOfList [itemBadWidth])).1 =
        Except.error "numeric element_width must be 1, 2, 4, or 8"
    ∧ (nif_compress_multi_typed okEngine (termOfList [itemNum12, itemBadWidth])).1 =
        Except.error "numeric element_width must be 1, 2, 4, or 8" :=
  ⟨rfl, rfl⟩

/-- Claim C5 amended: an input list whose first invalid item fails
validation makes the call fail with that item's constraint-specific
message — before the engine's multi-reference compress is ever invoked — but
the message does not include the item's position. -/
theorem c5_fail_fast (E : Engine) (t : ErlTerm) (pre rest : List ErlTerm)
    (bad : ErlTerm) (e : String)
    (hsplit : properItems t = pre ++ bad :: rest)
    (hpre : ∀ x ∈ pre, exOk (decodeOne E x).1 = true)
    (hbad : (decodeOne E bad).1 = Except.error e) :
    (nif_compress_multi_typed E t).1 = Except.error e
    ∧ ∀ call ∈ (nif_compress_multi_typed E t).2,
        isMultiCompressCall call = false := by
  have herr := decodeItems_append_error E pre bad rest e hpre hbad
  rw [← hsplit] at herr
  have hnm := decodeItems_no_multi E (properItems t)
  rw [nif_multi_eq]
  rcases hdi : decodeItems E (properItems t) with ⟨r, c⟩
  rw [hdi] at herr hnm
  simp only at herr
  subst herr
  exact ⟨rfl, hnm⟩

/-- Witness for the amended C5: a valid numeric item followed by a width-3
item fails with the width message and no multi-reference compress call. -/
theorem c5_fail_fast_witness :
    (nif_compress_multi_typed okEngine (termOfList [itemNum12, itemBadWidth])).1 =
        Except.error "numeric element_width must be 1, 2, 4, or 8"
    ∧ ∀ call ∈ (nif_compress_multi_typed okEngine
          (termOfList [itemNum12, itemBadWidth])).2,
        isMultiCompressCall call = false :=
  c5_fail_fast okEngine (termOfList [itemNum12, itemBadWidth]) [itemNum12] []
    itemBadWidth "numeric element_width must be 1, 2, 4, or 8" rfl
    (by intro x hx
        simp only [List.mem_singleton] at hx
        subst hx
        rfl)
    rfl

/-- Claim C6 counterexample: on an engine where the frame opens and its
output count is readable but the format-version query fails, `nif_frame_info`
returns an error — refuting the claim that the aggregate call errors only
when the frame cannot be opened or the output count cannot be read. -/
theorem c6_counterexample :
    verFailEngine.frameInfoCreateOk [1] = true
    ∧ verFailEngine.fiNumOutputs [1] = Except.ok 1
    ∧ nif_frame_info verFailEngine [1] = Except.error "failed to get format version" :=
  ⟨rfl, rfl, rfl⟩

/-- Claim C6 amended: `nif_frame_info` succeeds exactly when the input is
nonempty, the frame-info object can be created, and both the format version
and the output count are readable; on success the per-output list is the
position-indexed map of the three per-field queries, each one independently
falling back to the `:unknown` sentinel when it fails. -/
theorem c6_frame_info_fields (E : Engine) (c : List Nat) :
    (exOk (nif_frame_info E c) =
      (!c.isEmpty && E.frameInfoCreateOk c && exOk (E.fiFormatVersion c)
        && exOk (E.fiNumOutputs c)))
    ∧ (∀ r, nif_frame_info E c = Except.ok r →
        r.outputs = (List.range r.num_outputs).map (outputInfo E c))
    ∧ ∀ i,
        (E.fiOutputType c i = Except.error () → (outputInfo E c i).type = "unknown")
        ∧ ((outputInfo E c i).decompressed_size = none ↔
            E.fiDecompressedSize c i = Except.error ())
        ∧ ((outputInfo E c i).num_elements = none ↔
            E.fiNumElts c i = Except.error ()) := by
  refine ⟨?_, ?_, ?_⟩
  · cases hc : c.isEmpty
    · cases hfc : E.frameInfoCreateOk c
      · simp [nif_frame_info, exOk, hc, hfc]
      · rcases hv : E.fiFormatVersion c with u | v
        · simp [nif_frame_info, exOk, hc, hfc, hv]
        · rcases hn : E.fiNumOutputs c with u | n
          · simp [nif_frame_info, exOk, hc, hfc, hv, hn]
          · simp [nif_frame_info, exOk, hc, hfc, hv, hn]
    · simp [nif_frame_info, exOk, hc]
  · intro r hr
    unfold nif_frame_info at hr
    split at hr
    · simp at hr
    · split at hr
      · simp at hr
      · split at hr
        · simp at hr
        · split at hr
          · simp at hr
          · obtain hrr := Except.ok.injEq .. ▸ hr
            subst hrr
            rfl
  · intro i
    refine ⟨?_, ?_, ?_⟩
    · intro hty
      simp [outputInfo, hty]
    · rcases hs : E.fiDecompressedSize c i with u | v
      · simp [outputInfo, hs]
      · simp [outputInfo, hs]
    · rcases hs : E.fiNumElts c i with u | v
      · simp [outputInfo, hs]
      · simp [outputInfo, hs]

/-- Witness for the amended C6: with all three per-output queries failing,
the call still succeeds and every per-output field is the sentinel. -/
theorem c6_frame_info_fields_witness :
    exOk (nif_frame_info fieldFailEngine [1]) = true
    ∧ (outputInfo fieldFailEngine [1] 0).type = "unknown"
    ∧ (outputInfo fieldFailEngine [1] 0).decompressed_size = none
    ∧ (outputInfo fieldFailEngine [1] 0).num_elements = none :=
  ⟨(c6_frame_info_fields fieldFailEngine [1]).1.trans rfl,
   ((c6_frame_info_fields fieldFailEngine [1]).2.2 0).1 rfl,
   ((c6_frame_info_fields fieldFailEngine [1]).2.2 0).2.1.mpr rfl,
   ((c6_frame_info_fields fieldFailEngine [1]).2.2 0).2.2.mpr rfl⟩

/-- Claim C7 counterexample: a compiler exception with text "bad token" is
converted into an error whose message carries the "SDDL compilation failed: "
preamble, so the message is not the underlying exception's text itself. -/
theorem c7_counterexample :
    sddlFailEngine.sddlCompile "x" "[input]" = Except.error "bad token"
    ∧ (nif_sddl_compile sddlFailEngine "x").1 =
        Except.error "SDDL compilation failed: bad token"
    ∧ "SDDL compilation failed: bad token" ≠ "bad token" :=
  ⟨rfl, rfl, by decide⟩

/-- Claim C7 amended: for every nonempty source, a compiler exception is
caught at the boundary and converted into an error result whose message is
the exception's text prefixed with "SDDL compilation failed: "; the function
is total, so no exception escapes into host code. -/
theorem c7_compile_exception_caught (E : Engine) (source w : String)
    (hs : source.isEmpty = false)
    (hw : E.sddlCompile source "[input]" = Except.error w) :
    nif_sddl_compile E source =
      (Except.error ("SDDL compilation failed: " ++ w),
       [ECall.sddlCompile source]) := by
  simp [nif_sddl_compile, hs, hw]

/-- Witness for the amended C7 at a concrete throwing compiler. -/
theorem c7_compile_exception_caught_witness :
    nif_sddl_compile sddlFailEngine "x" =
      (Except.error "SDDL compilation failed: bad token",
       [ECall.sddlCompile "x"]) :=
  c7_compile_exception_caught sddlFailEngine "x" "bad token" rfl rfl

/-- Claim C8: the string-typed compress path requires the lengths buffer to
be a multiple of 4 bytes before any native construction (misalignment errors
out with an empty call trace), and under that single requirement the native
string reference is constructed — with no check relating the summed lengths
to the data size — both in `nif_compress_typed_string` and in the string
branch of the multi-typed item decoder. -/
theorem c8_string_lengths_lax (E : Engine) (data lensBin : List Nat) :
    (data.isEmpty = false → lensBin.length % 4 ≠ 0 →
        nif_compress_typed_string E data lensBin =
          (Except.error "lengths binary size must be a multiple of 4", []))
    ∧ (data.isEmpty = false → lensBin.length % 4 = 0 →
        ECall.createString data data.length (u32sLE lensBin) (lensBin.length / 4)
          ∈ (nif_compress_typed_string E data lensBin).2)
    ∧ (lensBin.length % 4 = 0 →
        E.createStringOk data data.length (u32sLE lensBin) (lensBin.length / 4) = true →
        (decodeOne E (ErlTerm.tuple [ErlTerm.atom "string", ErlTerm.bin data,
            ErlTerm.bin lensBin])).1 =
          Except.ok (TypedRef.str data (u32sLE lensBin) (lensBin.length / 4))) := by
  refine ⟨?_, ?_, ?_⟩
  · intro hd hm
    simp [nif_compress_typed_string, hd, hm]
  · intro hd hm
    cases hok : E.createStringOk data data.length (u32sLE lensBin) (lensBin.length / 4)
    · simp [nif_compress_typed_string, hd, hm, hok]
    · rcases hcr : E.compressTypedRef (E.compressBound data.length)
          (TypedRef.str data (u32sLE lensBin) (lensBin.length / 4)) with es | o
      · simp [nif_compress_typed_string, hd, hm, hok, hcr]
      · simp [nif_compress_typed_string, hd, hm, hok, hcr]
  · intro hm hok
    have hlen : ¬ (16 ≤ ("string".length)) := by decide
    simp [decodeOne, hm, hok, hlen]

/-- Witness for C8 at a concrete mismatching input: data of 3 bytes with a
single declared length 7 (sum of lengths differs from the data size) still
reaches native construction and decodes to a string reference, while a
misaligned lengths buffer errors before any call. -/
theorem c8_string_lengths_lax_witness :
    nif_compress_typed_string okEngine [1, 2, 3] [1, 2, 3] =
      (Except.error "lengths binary size must be a multiple of 4", [])
    ∧ ECall.createString [1, 2, 3] 3 [7] 1
        ∈ (nif_compress_typed_string okEngine [1, 2, 3] [7, 0, 0, 0]).2
    ∧ (decodeOne okEngine (ErlTerm.tuple [ErlTerm.atom "string",
        ErlTerm.bin [1, 2, 3], ErlTerm.bin [7, 0, 0, 0]])).1 =
        Except.ok (TypedRef.str [1, 2, 3] [7] 1) :=
  ⟨(c8_string_lengths_lax okEngine [1, 2, 3] [1, 2, 3]).1 rfl (by decide),
   (c8_string_lengths_lax okEngine [1, 2, 3] [7, 0, 0, 0]).2.1 rfl (by decide),
   (c8_string_lengths_lax okEngine [1, 2, 3] [7, 0, 0, 0]).2.2 (by decide) rfl⟩

end ExOpenzl
